import Mathlib

/-!
# Execution providers of the EVM relay (`core/services/relay/evm/exec_provider.go`)

A shallow embedding of `SrcExecProvider` and `DstExecProvider`.

* A Go `error` is `Option GoError` (`none` is `nil`).
* A pointer field is an `Option` (`none` is the nil pointer); dereferencing a
  nil pointer panics, which is the result `none` of a `Ran`.
* Injected collaborators (log poller, chain client, the `ccip` reader
  constructors and teardown functions, `net/url`) are the fields of `Env`;
  every invocation of one is appended to the list of `Call`s a method returns,
  except the pure conversions `GenericAddrToEvm`, `EvmAddrToGeneric` and
  `url.ParseRequestURI`.
* `uint64`, `uint` and `int` are 64 bits wide; conversions between them are
  written out with `% 2^64`.
-/

namespace ExecProvider

/-- The Go type `cciptypes.Address`, a string. -/
abbrev Address := String

/-- The Go type `common.Address` (20 bytes), read as a big-endian number. -/
abbrev EvmAddress := Nat

/-- An injected collaborator or a reader it built, known only by identity. -/
abbrev Handle := Nat

/-- Go error values: `fmt.Errorf` without and with a `%w` verb, and the
    `multiError` of `go.uber.org/multierr`. -/
inductive GoError where
  | errorf (msg : String)
  | wrapf (msg : String) (inner : GoError)
  | multi (errs : List GoError)

/-- The function `multierr.Errors` on a non-nil error: the errors it is made of. -/
def GoError.Errors : GoError → List GoError
  | .multi errs => errs
  | e => [e]

/-- The function `multierr.Errors`: nil has no errors. -/
def multierrErrors : Option GoError → List GoError
  | none => []
  | some e => e.Errors

/-- The function `multierr.Append`: nil operands are dropped, two non-nil
    operands are flattened into one `multiError`. -/
def multierrAppend : Option GoError → Option GoError → Option GoError
  | none, right => right
  | left, none => left
  | some left, some right => some (.multi (left.Errors ++ right.Errors))

/-- The conversion `int64(x)` (and `int(x)`) of an unsigned 64-bit value. -/
def toInt64 (x : Nat) : Int :=
  if x % 2 ^ 64 < 2 ^ 63 then ((x % 2 ^ 64 : Nat) : Int) else ((x % 2 ^ 64 : Nat) : Int) - 2 ^ 64

/-- Wrap-around of a signed 64-bit result. -/
def wrapInt64 (z : Int) : Int :=
  (z + 2 ^ 63) % 2 ^ 64 - 2 ^ 63

/-- The constant `time.Millisecond`, in nanoseconds. -/
def Millisecond : Int := 1000000

/-- A logger, known by its name. -/
structure Logger where
  name : String
deriving DecidableEq, Repr

/-- The function `logger.Named` on a zap-backed logger: an empty segment
    changes nothing, and name segments are joined by periods. -/
def Logger.Named (l : Logger) (n : String) : Logger :=
  if n = "" then l else if l.name = "" then ⟨n⟩ else ⟨l.name ++ "." ++ n⟩

/-- The method `Name` of a logger. -/
def Logger.Name (l : Logger) : String := l.name

/-- Modelled from the spec: `config.USDCConfig` is not among the sources; a
    token-bridge configuration holds the token contract address on the source
    chain, the attestation endpoint, the timeout in seconds and the poll
    interval in milliseconds; the field names are those `exec_provider.go` reads. -/
structure USDCConfig where
  SourceTokenAddress : EvmAddress
  SourceMessageTransmitterAddress : EvmAddress
  AttestationAPI : String
  AttestationAPITimeoutSeconds : Nat
  AttestationAPIIntervalMilliseconds : Int
deriving DecidableEq, Repr

/-- Modelled from the spec: `config.LBTCConfig` is not among the sources; the
    same shape as the USDC configuration, without a message transmitter. -/
structure LBTCConfig where
  SourceTokenAddress : EvmAddress
  AttestationAPI : String
  AttestationAPITimeoutSeconds : Nat
  AttestationAPIIntervalMilliseconds : Int
deriving DecidableEq, Repr

/-- One invocation of an external collaborator, with the arguments it received. -/
inductive Call where
  | Infow (lggr : Logger) (msg : String) (key : String) (value : Nat)
  | Replay (lp : Handle) (fromBlock : Int)
  | NewUSDCReader (lggr : Logger) (jobID : String) (transmitter : EvmAddress) (lp : Handle)
      (registerFilters : Bool)
  | CloseUSDCReader (lggr : Logger) (jobID : String) (transmitter : EvmAddress) (lp : Handle)
  | NewOnRampReader (lggr : Logger) (sourceSelector destSelector : Nat) (addr : Address)
      (lp client : Handle)
  | CloseOnRampReader (lggr : Logger) (sourceSelector destSelector : Nat) (addr : Address)
      (lp client : Handle)
  | SetOnRampReader (feeEstimatorConfig : Handle) (reader : Option Handle)
  | NewIncompleteSourceCommitStoreReader (estimator : Handle) (maxGasPrice : Option Int)
      (feeEstimatorConfig : Handle)
  | NewIncompleteDestCommitStoreReader (lggr : Logger) (addr : Address)
      (client lp feeEstimatorConfig : Handle)
  | CloseCommitStoreReader (lggr : Logger) (addr : Address)
      (client lp feeEstimatorConfig : Handle)
  | NewOffRampReader (lggr : Logger) (versionFinder : Handle) (addr : Address)
      (client lp estimator : Handle) (maxGasPrice : Int) (registerFilters : Bool)
      (feeEstimatorConfig : Handle)
  | CloseOffRampReader (lggr : Logger) (addr : Address) (client lp : Handle)
      (estimator : Option Handle) (maxGasPrice : Int) (feeEstimatorConfig : Handle)
  | NewPriceRegistryReader (lp client : Handle) (lggr : Logger) (addr : Address)
  | NewRouter (addr : EvmAddress) (client : Handle)
  | GetWrappedNative (router : Option Handle)
  | NewEVMTokenPoolBatchedReader (lggr : Logger) (sourceSelector : Nat) (offRampAddr : Address)
      (client : Handle)
  | GetTransactionStatus (txm : Handle) (transactionID : String)
deriving DecidableEq, Repr

/-- The external collaborators: what each returns for the arguments it receives.
    A reader constructor returns a Go pair `(reader, err)`. -/
structure Env where
  Replay : Handle → Int → Option GoError
  NewUSDCReader : Logger → String → EvmAddress → Handle → Bool → Option Handle × Option GoError
  CloseUSDCReader : Logger → String → EvmAddress → Handle → Option GoError
  NewOnRampReader : Logger → Nat → Nat → Address → Handle → Handle →
    Option Handle × Option GoError
  CloseOnRampReader : Logger → Nat → Nat → Address → Handle → Handle → Option GoError
  NewIncompleteSourceCommitStoreReader : Handle → Option Int → Handle → Option Handle
  NewIncompleteDestCommitStoreReader : Logger → Address → Handle → Handle → Handle →
    Option Handle × Option GoError
  CloseCommitStoreReader : Logger → Address → Handle → Handle → Handle → Option GoError
  NewOffRampReader : Logger → Handle → Address → Handle → Handle → Handle → Int → Bool →
    Handle → Option Handle × Option GoError
  CloseOffRampReader : Logger → Address → Handle → Handle → Option Handle → Int → Handle →
    Option GoError
  NewPriceRegistryReader : Handle → Handle → Logger → Address → Option Handle × Option GoError
  GenericAddrToEvm : Address → Except GoError EvmAddress
  EvmAddrToGeneric : EvmAddress → Address
  ParseRequestURI : String → Except GoError String
  NewRouter : EvmAddress → Handle → Option Handle × Option GoError
  GetWrappedNative : Option Handle → EvmAddress × Option GoError
  NewEVMTokenPoolBatchedReader : Logger → Nat → Address → Handle →
    Option Handle × Option GoError
  GetTransactionStatus : Handle → String → Nat × Option GoError

/-- What running a piece of code gave: its value (`none` when it panicked) and
    the collaborator calls it made, in order. -/
structure Ran (α : Type) where
  value : Option α
  calls : List Call

/-- What a method call gave: the returned values, the provider afterwards and
    the collaborator calls made, in order. -/
structure Res (σ α : Type) where
  ret : α
  self : σ
  calls : List Call

/-- The teardown loop shared by both `Close` methods: every function of the
    list runs, and each non-nil error is appended to the aggregate. -/
def runUnregisterFuncs :
    List (Unit → Ran (Option GoError)) → Option GoError → List Call → Ran (Option GoError)
  | [], multiErr, calls => ⟨some multiErr, calls⟩
  | fn :: rest, multiErr, calls =>
    match fn () with
    | ⟨none, cs⟩ => ⟨none, calls ++ cs⟩
    | ⟨some none, cs⟩ => runUnregisterFuncs rest multiErr (calls ++ cs)
    | ⟨some (some err), cs⟩ =>
      runUnregisterFuncs rest (multierrAppend multiErr (some err)) (calls ++ cs)

/-- What the accessors `OffchainConfigDigester`, `ContractConfigTracker` and
    `ContractTransmitter` return: an inert stand-in, the component of the
    config watcher, or an injected component. -/
inductive OCRComponent where
  | Unimplemented
  | ofConfigWatcher (configWatcher : Handle)
  | injected (component : Handle)
deriving DecidableEq, Repr

/-- A token-data reader, known by the arguments its constructor
    (`usdc.NewUSDCTokenDataReader` or `lbtc.NewLBTCTokenDataReader`) received;
    the timeout is an `int` of seconds, the interval a `time.Duration`. -/
inductive TokenDataReader where
  | USDC (lggr : Logger) (usdcReader : Option Handle) (attestationURI : String)
      (timeoutSeconds : Int) (tokenAddr : EvmAddress) (requestInterval : Int)
  | LBTC (lggr : Logger) (attestationURI : String)
      (timeoutSeconds : Int) (tokenAddr : EvmAddress) (requestInterval : Int)
deriving DecidableEq, Repr

/-! ## The source-side provider -/

/-- The struct `SrcExecProvider`. -/
structure SrcExecProvider where
  lggr : Logger
  versionFinder : Handle
  client : Handle
  lp : Handle
  startBlock : Nat
  estimator : Handle
  maxGasPrice : Option Int
  usdcReader : Option Handle
  usdcConfig : USDCConfig
  lbtcConfig : LBTCConfig
  feeEstimatorConfig : Handle
  seenOnRampAddress : Option Address
  seenSourceChainSelector : Option Nat
  seenDestChainSelector : Option Nat
deriving DecidableEq, Repr

/-- The constructor `NewSrcExecProvider`: the USDC reader is registered when an
    attestation endpoint is configured; the seen records start nil. -/
def NewSrcExecProvider (env : Env) (lggr : Logger) (versionFinder client estimator : Handle)
    (maxGasPrice : Option Int) (lp : Handle) (startBlock : Nat) (jobID : String)
    (usdcConfig : USDCConfig) (lbtcConfig : LBTCConfig) (feeEstimatorConfig : Handle) :
    (Option SrcExecProvider × Option GoError) × List Call :=
  let build (usdcReader : Option Handle) : SrcExecProvider :=
    { lggr := lggr.Named "SrcExecProvider"
      versionFinder := versionFinder
      client := client
      estimator := estimator
      maxGasPrice := maxGasPrice
      lp := lp
      startBlock := startBlock
      usdcReader := usdcReader
      usdcConfig := usdcConfig
      lbtcConfig := lbtcConfig
      feeEstimatorConfig := feeEstimatorConfig
      seenOnRampAddress := none
      seenSourceChainSelector := none
      seenDestChainSelector := none }
  if usdcConfig.AttestationAPI ≠ "" then
    let r := env.NewUSDCReader lggr jobID usdcConfig.SourceMessageTransmitterAddress lp true
    let calls := [Call.NewUSDCReader lggr jobID usdcConfig.SourceMessageTransmitterAddress lp true]
    match r.2 with
    | some err => ((none, some (.wrapf "new usdc reader" err)), calls)
    | none => ((some (build r.1), none), calls)
  else
    ((some (build none), none), [])

namespace SrcExecProvider

/-- The method `Name`. -/
def Name (s : SrcExecProvider) : String := s.lggr.Name

/-- The method `Start`: replay from the start block when it is not zero. -/
def Start (env : Env) (s : SrcExecProvider) : Res SrcExecProvider (Option GoError) :=
  if s.startBlock ≠ 0 then
    ⟨env.Replay s.lp (toInt64 s.startBlock), s,
      [Call.Infow s.lggr "start replaying src chain" "fromBlock" s.startBlock,
       Call.Replay s.lp (toInt64 s.startBlock)]⟩
  else
    ⟨none, s, []⟩

/-- The first teardown function of `Close`: the on-ramp reader. The arguments
    of `CloseOnRampReader` are evaluated left to right, the two selectors
    before the address. -/
def closeOnRamp (env : Env) (s : SrcExecProvider) : Unit → Ran (Option GoError) := fun _ =>
  match s.seenOnRampAddress with
  | none => ⟨some none, []⟩
  | some addr =>
    match s.seenSourceChainSelector with
    | none => ⟨none, []⟩
    | some sourceSelector =>
      match s.seenDestChainSelector with
      | none => ⟨none, []⟩
      | some destSelector =>
        ⟨some (env.CloseOnRampReader s.lggr sourceSelector destSelector addr s.lp s.client),
          [Call.CloseOnRampReader s.lggr sourceSelector destSelector addr s.lp s.client]⟩

/-- The second teardown function of `Close`: the USDC reader. -/
def closeUSDC (env : Env) (s : SrcExecProvider) : Unit → Ran (Option GoError) := fun _ =>
  if s.usdcConfig.AttestationAPI = "" then
    ⟨some none, []⟩
  else
    ⟨some (env.CloseUSDCReader s.lggr s.lggr.Name s.usdcConfig.SourceMessageTransmitterAddress s.lp),
      [Call.CloseUSDCReader s.lggr s.lggr.Name s.usdcConfig.SourceMessageTransmitterAddress s.lp]⟩

/-- The method `Close`. -/
def Close (env : Env) (s : SrcExecProvider) : Ran (Option GoError) :=
  runUnregisterFuncs [closeOnRamp env s, closeUSDC env s] none []

/-- The method `Ready`. -/
def Ready (_s : SrcExecProvider) : Option GoError := none

/-- The method `HealthReport`: an empty map. -/
def HealthReport (_s : SrcExecProvider) : List (String × GoError) := []

/-- The method `OffchainConfigDigester`: an inert stand-in. -/
def OffchainConfigDigester (_s : SrcExecProvider) : OCRComponent := .Unimplemented

/-- The method `ContractConfigTracker`: an inert stand-in. -/
def ContractConfigTracker (_s : SrcExecProvider) : OCRComponent := .Unimplemented

/-- The method `ContractTransmitter`: an inert stand-in. -/
def ContractTransmitter (_s : SrcExecProvider) : OCRComponent := .Unimplemented

/-- The method `ContractReader`: nil. -/
def ContractReader (_s : SrcExecProvider) : Option Handle := none

/-- The method `Codec`: nil. -/
def Codec (_s : SrcExecProvider) : Option Handle := none

/-- The method `GetTransactionStatus`, valid on the destination side only. -/
def GetTransactionStatus (s : SrcExecProvider) (_transactionID : String) :
    Res SrcExecProvider (Nat × Option GoError) :=
  ⟨(0, some (.errorf
    "invalid: GetTransactionStatus called on SrcExecProvider. It should only be called on DstExecProvider")),
    s, []⟩

/-- The method `NewCommitStoreReader`: an incomplete source-side reader. -/
def NewCommitStoreReader (env : Env) (s : SrcExecProvider) (_addr : Address) :
    Res SrcExecProvider (Option Handle × Option GoError) :=
  ⟨(env.NewIncompleteSourceCommitStoreReader s.estimator s.maxGasPrice s.feeEstimatorConfig, none),
    s, [Call.NewIncompleteSourceCommitStoreReader s.estimator s.maxGasPrice s.feeEstimatorConfig]⟩

/-- The method `NewOffRampReader`, valid on the destination side only. -/
def NewOffRampReader (s : SrcExecProvider) (_addr : Address) :
    Res SrcExecProvider (Option Handle × Option GoError) :=
  ⟨(none, some (.errorf
    "invalid: NewOffRampReader called on SrcExecProvider. Valid on DstExecProvider")), s, []⟩

/-- The method `NewOnRampReader`: the address is recorded first, then the
    reader is built and handed to the fee estimator configuration. -/
def NewOnRampReader (env : Env) (s : SrcExecProvider) (onRampAddress : Address)
    (sourceChainSelector destChainSelector : Nat) :
    Res SrcExecProvider (Option Handle × Option GoError) :=
  let s1 : SrcExecProvider := { s with seenOnRampAddress := some onRampAddress }
  let r := env.NewOnRampReader s1.lggr sourceChainSelector destChainSelector onRampAddress
    s1.lp s1.client
  let built := Call.NewOnRampReader s1.lggr sourceChainSelector destChainSelector onRampAddress
    s1.lp s1.client
  match r.2 with
  | some err => ⟨(none, some err), s1, [built]⟩
  | none => ⟨(r.1, none), s1, [built, Call.SetOnRampReader s1.feeEstimatorConfig r.1]⟩

/-- The method `NewPriceRegistryReader`. -/
def NewPriceRegistryReader (env : Env) (s : SrcExecProvider) (addr : Address) :
    Res SrcExecProvider (Option Handle × Option GoError) :=
  ⟨env.NewPriceRegistryReader s.lp s.client s.lggr addr, s,
    [Call.NewPriceRegistryReader s.lp s.client s.lggr addr]⟩

/-- The method `NewTokenDataReader`: the token address is parsed, then matched
    against the USDC configuration first and the LBTC configuration second. -/
def NewTokenDataReader (env : Env) (s : SrcExecProvider) (tokenAddress : Address) :
    Res SrcExecProvider (Option TokenDataReader × Option GoError) :=
  match env.GenericAddrToEvm tokenAddress with
  | .error err => ⟨(none, some (.wrapf "failed to parse token address" err)), s, []⟩
  | .ok tokenAddr =>
    if tokenAddr = s.usdcConfig.SourceTokenAddress then
      match env.ParseRequestURI s.usdcConfig.AttestationAPI with
      | .error err => ⟨(none, some (.wrapf "failed to parse USDC attestation API" err)), s, []⟩
      | .ok attestationURI =>
        ⟨(some (.USDC s.lggr s.usdcReader attestationURI
            (toInt64 s.usdcConfig.AttestationAPITimeoutSeconds) tokenAddr
            (wrapInt64 (s.usdcConfig.AttestationAPIIntervalMilliseconds * Millisecond))), none),
          s, []⟩
    else if tokenAddr = s.lbtcConfig.SourceTokenAddress then
      match env.ParseRequestURI s.lbtcConfig.AttestationAPI with
      | .error err => ⟨(none, some (.wrapf "failed to parse USDC attestation API" err)), s, []⟩
      | .ok attestationURI =>
        ⟨(some (.LBTC s.lggr attestationURI
            (toInt64 s.lbtcConfig.AttestationAPITimeoutSeconds) tokenAddr
            (wrapInt64 (s.lbtcConfig.AttestationAPIIntervalMilliseconds * Millisecond))), none),
          s, []⟩
    else
      ⟨(none, some (.errorf ("unsupported token address: " ++ tokenAddress))), s, []⟩

/-- The method `NewTokenPoolBatchedReader`, valid on the destination side only. -/
def NewTokenPoolBatchedReader (s : SrcExecProvider) (_offRampAddr : Address)
    (_sourceChainSelector : Nat) : Res SrcExecProvider (Option Handle × Option GoError) :=
  ⟨(none, some (.errorf
    "invalid: NewTokenPoolBatchedReader called on SrcExecProvider. It should only be called on DstExecProvdier")),
    s, []⟩

/-- The method `SourceNativeToken`: the wrapped native token of the router. -/
def SourceNativeToken (env : Env) (s : SrcExecProvider) (sourceRouterAddr : Address) :
    Res SrcExecProvider (Address × Option GoError) :=
  match env.GenericAddrToEvm sourceRouterAddr with
  | .error err => ⟨("", some err), s, []⟩
  | .ok sourceRouterAddrHex =>
    let sourceRouter := env.NewRouter sourceRouterAddrHex s.client
    match sourceRouter.2 with
    | some err => ⟨("", some err), s, [Call.NewRouter sourceRouterAddrHex s.client]⟩
    | none =>
      let sourceNative := env.GetWrappedNative sourceRouter.1
      let calls := [Call.NewRouter sourceRouterAddrHex s.client,
        Call.GetWrappedNative sourceRouter.1]
      match sourceNative.2 with
      | some err => ⟨("", some err), s, calls⟩
      | none => ⟨(env.EvmAddrToGeneric sourceNative.1, none), s, calls⟩

end SrcExecProvider

/-! ## The destination-side provider -/

/-- The struct `DstExecProvider`. -/
structure DstExecProvider where
  lggr : Logger
  versionFinder : Handle
  client : Handle
  lp : Handle
  startBlock : Nat
  contractTransmitter : Handle
  configWatcher : Handle
  gasEstimator : Handle
  maxGasPrice : Int
  feeEstimatorConfig : Handle
  txm : Handle
  offRampAddress : Address
  seenCommitStoreAddr : Option Address
deriving DecidableEq, Repr

/-- The constructor `NewDstExecProvider`: it always succeeds; the seen record
    starts nil. -/
def NewDstExecProvider (lggr : Logger) (versionFinder client lp : Handle) (startBlock : Nat)
    (contractTransmitter configWatcher gasEstimator : Handle) (maxGasPrice : Int)
    (feeEstimatorConfig txm : Handle) (offRampAddress : Address) :
    Option DstExecProvider × Option GoError :=
  (some
    { lggr := lggr.Named "DstExecProvider"
      versionFinder := versionFinder
      client := client
      lp := lp
      startBlock := startBlock
      contractTransmitter := contractTransmitter
      configWatcher := configWatcher
      gasEstimator := gasEstimator
      maxGasPrice := maxGasPrice
      feeEstimatorConfig := feeEstimatorConfig
      txm := txm
      offRampAddress := offRampAddress
      seenCommitStoreAddr := none }, none)

namespace DstExecProvider

/-- The method `Name`. -/
def Name (d : DstExecProvider) : String := d.lggr.Name

/-- The method `Start`: replay from the start block when it is not zero. -/
def Start (env : Env) (d : DstExecProvider) : Res DstExecProvider (Option GoError) :=
  if d.startBlock ≠ 0 then
    ⟨env.Replay d.lp (toInt64 d.startBlock), d,
      [Call.Infow d.lggr "start replaying dst chain" "fromBlock" d.startBlock,
       Call.Replay d.lp (toInt64 d.startBlock)]⟩
  else
    ⟨none, d, []⟩

/-- The first teardown function of `Close`: the commit-store reader. -/
def closeCommitStore (env : Env) (d : DstExecProvider) : Unit → Ran (Option GoError) := fun _ =>
  match d.seenCommitStoreAddr with
  | none => ⟨some none, []⟩
  | some addr =>
    ⟨some (env.CloseCommitStoreReader d.lggr addr d.client d.lp d.feeEstimatorConfig),
      [Call.CloseCommitStoreReader d.lggr addr d.client d.lp d.feeEstimatorConfig]⟩

/-- The second teardown function of `Close`: the off-ramp reader, with a nil
    estimator and a zero gas price. -/
def closeOffRamp (env : Env) (d : DstExecProvider) : Unit → Ran (Option GoError) := fun _ =>
  ⟨some (env.CloseOffRampReader d.lggr d.offRampAddress d.client d.lp none 0 d.feeEstimatorConfig),
    [Call.CloseOffRampReader d.lggr d.offRampAddress d.client d.lp none 0 d.feeEstimatorConfig]⟩

/-- The method `Close`. -/
def Close (env : Env) (d : DstExecProvider) : Ran (Option GoError) :=
  runUnregisterFuncs [closeCommitStore env d, closeOffRamp env d] none []

/-- The method `Ready`. -/
def Ready (_d : DstExecProvider) : Option GoError := none

/-- The method `HealthReport`: an empty map. -/
def HealthReport (_d : DstExecProvider) : List (String × GoError) := []

/-- The method `OffchainConfigDigester`: that of the config watcher. -/
def OffchainConfigDigester (d : DstExecProvider) : OCRComponent := .ofConfigWatcher d.configWatcher

/-- The method `ContractConfigTracker`: that of the config watcher. -/
def ContractConfigTracker (d : DstExecProvider) : OCRComponent := .ofConfigWatcher d.configWatcher

/-- The method `ContractTransmitter`: the injected transmitter. -/
def ContractTransmitter (d : DstExecProvider) : OCRComponent := .injected d.contractTransmitter

/-- The method `ContractReader`: nil. -/
def ContractReader (_d : DstExecProvider) : Option Handle := none

/-- The method `Codec`: nil. -/
def Codec (_d : DstExecProvider) : Option Handle := none

/-- The method `GetTransactionStatus`: that of the transaction manager. -/
def GetTransactionStatus (env : Env) (d : DstExecProvider) (transactionID : String) :
    Res DstExecProvider (Nat × Option GoError) :=
  ⟨env.GetTransactionStatus d.txm transactionID, d,
    [Call.GetTransactionStatus d.txm transactionID]⟩

/-- The method `NewCommitStoreReader`: the address is recorded first, then the
    reader is built; both results of the construction are returned as they come. -/
def NewCommitStoreReader (env : Env) (d : DstExecProvider) (addr : Address) :
    Res DstExecProvider (Option Handle × Option GoError) :=
  let d1 : DstExecProvider := { d with seenCommitStoreAddr := some addr }
  ⟨env.NewIncompleteDestCommitStoreReader d1.lggr addr d1.client d1.lp d1.feeEstimatorConfig, d1,
    [Call.NewIncompleteDestCommitStoreReader d1.lggr addr d1.client d1.lp d1.feeEstimatorConfig]⟩

/-- The method `NewOffRampReader`. -/
def NewOffRampReader (env : Env) (d : DstExecProvider) (offRampAddress : Address) :
    Res DstExecProvider (Option Handle × Option GoError) :=
  ⟨env.NewOffRampReader d.lggr d.versionFinder offRampAddress d.client d.lp d.gasEstimator
      d.maxGasPrice true d.feeEstimatorConfig, d,
    [Call.NewOffRampReader d.lggr d.versionFinder offRampAddress d.client d.lp d.gasEstimator
      d.maxGasPrice true d.feeEstimatorConfig]⟩

/-- The method `NewOnRampReader`, valid on the source side only. -/
def NewOnRampReader (d : DstExecProvider) (_addr : Address)
    (_sourceChainSelector _destChainSelector : Nat) :
    Res DstExecProvider (Option Handle × Option GoError) :=
  ⟨(none, some (.errorf
    "invalid: NewOnRampReader called on DstExecProvider. It should only be called on SrcExecProvider")),
    d, []⟩

/-- The method `NewPriceRegistryReader`. -/
def NewPriceRegistryReader (env : Env) (d : DstExecProvider) (addr : Address) :
    Res DstExecProvider (Option Handle × Option GoError) :=
  ⟨env.NewPriceRegistryReader d.lp d.client d.lggr addr, d,
    [Call.NewPriceRegistryReader d.lp d.client d.lggr addr]⟩

/-- The method `NewTokenDataReader`, valid on the source side only. -/
def NewTokenDataReader (d : DstExecProvider) (_tokenAddress : Address) :
    Res DstExecProvider (Option TokenDataReader × Option GoError) :=
  ⟨(none, some (.errorf
    "invalid: NewTokenDataReader called on DstExecProvider. It should only be called on SrcExecProvider")),
    d, []⟩

/-- The method `NewTokenPoolBatchedReader`: a construction error is wrapped.
    The batch caller handed to the constructor is built from the logger, the
    client and three package constants, so the client stands for it here. -/
def NewTokenPoolBatchedReader (env : Env) (d : DstExecProvider) (offRampAddress : Address)
    (sourceChainSelector : Nat) : Res DstExecProvider (Option Handle × Option GoError) :=
  let r := env.NewEVMTokenPoolBatchedReader d.lggr sourceChainSelector offRampAddress d.client
  let calls := [Call.NewEVMTokenPoolBatchedReader d.lggr sourceChainSelector offRampAddress d.client]
  match r.2 with
  | some err => ⟨(none, some (.wrapf "new token pool batched reader" err)), d, calls⟩
  | none => ⟨(r.1, none), d, calls⟩

/-- The method `SourceNativeToken`, valid on the source side only. -/
def SourceNativeToken (d : DstExecProvider) (_addr : Address) :
    Res DstExecProvider (Address × Option GoError) :=
  ⟨("", some (.errorf
    "invalid: SourceNativeToken called on DstExecProvider. It should only be called on SrcExecProvider")),
    d, []⟩

end DstExecProvider

/-! ## Histories of calls -/

/-- One call of a method of the source-side provider before it is closed. -/
inductive SrcOp where
  | Name | Start | Ready | HealthReport | OffchainConfigDigester | ContractConfigTracker
  | ContractTransmitter | ContractReader | Codec
  | GetTransactionStatus (transactionID : String)
  | NewCommitStoreReader (addr : Address)
  | NewOffRampReader (addr : Address)
  | NewOnRampReader (onRampAddress : Address) (sourceChainSelector destChainSelector : Nat)
  | NewPriceRegistryReader (addr : Address)
  | NewTokenDataReader (tokenAddress : Address)
  | NewTokenPoolBatchedReader (offRampAddr : Address) (sourceChainSelector : Nat)
  | SourceNativeToken (sourceRouterAddr : Address)
deriving DecidableEq, Repr

/-- One call of a method of the destination-side provider. -/
inductive DstOp where
  | Name | Start | Close | Ready | HealthReport | OffchainConfigDigester | ContractConfigTracker
  | ContractTransmitter | ContractReader | Codec
  | GetTransactionStatus (transactionID : String)
  | NewCommitStoreReader (addr : Address)
  | NewOffRampReader (offRampAddress : Address)
  | NewOnRampReader (addr : Address) (sourceChainSelector destChainSelector : Nat)
  | NewPriceRegistryReader (addr : Address)
  | NewTokenDataReader (tokenAddress : Address)
  | NewTokenPoolBatchedReader (offRampAddress : Address) (sourceChainSelector : Nat)
  | SourceNativeToken (addr : Address)
deriving DecidableEq, Repr

/-- The provider after one call and the collaborator calls it made; the
    collaborators answer as `env` says during this call. -/
def SrcExecProvider.step (env : Env) (s : SrcExecProvider) : SrcOp → SrcExecProvider × List Call
  | .Name | .Ready | .HealthReport | .OffchainConfigDigester | .ContractConfigTracker
  | .ContractTransmitter | .ContractReader | .Codec => (s, [])
  | .Start => ((s.Start env).self, (s.Start env).calls)
  | .GetTransactionStatus id => ((s.GetTransactionStatus id).self, (s.GetTransactionStatus id).calls)
  | .NewCommitStoreReader a => ((s.NewCommitStoreReader env a).self, (s.NewCommitStoreReader env a).calls)
  | .NewOffRampReader a => ((s.NewOffRampReader a).self, (s.NewOffRampReader a).calls)
  | .NewOnRampReader a src dst =>
    ((s.NewOnRampReader env a src dst).self, (s.NewOnRampReader env a src dst).calls)
  | .NewPriceRegistryReader a =>
    ((s.NewPriceRegistryReader env a).self, (s.NewPriceRegistryReader env a).calls)
  | .NewTokenDataReader a => ((s.NewTokenDataReader env a).self, (s.NewTokenDataReader env a).calls)
  | .NewTokenPoolBatchedReader a sel =>
    ((s.NewTokenPoolBatchedReader a sel).self, (s.NewTokenPoolBatchedReader a sel).calls)
  | .SourceNativeToken a => ((s.SourceNativeToken env a).self, (s.SourceNativeToken env a).calls)

/-- The provider after a history of calls, each with the collaborators of its
    moment, and all the collaborator calls made. -/
def SrcExecProvider.run (s : SrcExecProvider) : List (Env × SrcOp) → SrcExecProvider × List Call
  | [] => (s, [])
  | (env, op) :: rest =>
    let r := (s.step env op).1.run rest
    (r.1, (s.step env op).2 ++ r.2)

/-- The provider after one call and the collaborator calls it made. -/
def DstExecProvider.step (env : Env) (d : DstExecProvider) : DstOp → DstExecProvider × List Call
  | .Name | .Ready | .HealthReport | .OffchainConfigDigester | .ContractConfigTracker
  | .ContractTransmitter | .ContractReader | .Codec => (d, [])
  | .Start => ((d.Start env).self, (d.Start env).calls)
  | .Close => (d, (d.Close env).calls)
  | .GetTransactionStatus id =>
    ((d.GetTransactionStatus env id).self, (d.GetTransactionStatus env id).calls)
  | .NewCommitStoreReader a => ((d.NewCommitStoreReader env a).self, (d.NewCommitStoreReader env a).calls)
  | .NewOffRampReader a => ((d.NewOffRampReader env a).self, (d.NewOffRampReader env a).calls)
  | .NewOnRampReader a src dst => ((d.NewOnRampReader a src dst).self, (d.NewOnRampReader a src dst).calls)
  | .NewPriceRegistryReader a =>
    ((d.NewPriceRegistryReader env a).self, (d.NewPriceRegistryReader env a).calls)
  | .NewTokenDataReader a => ((d.NewTokenDataReader a).self, (d.NewTokenDataReader a).calls)
  | .NewTokenPoolBatchedReader a sel =>
    ((d.NewTokenPoolBatchedReader env a sel).self, (d.NewTokenPoolBatchedReader env a sel).calls)
  | .SourceNativeToken a => ((d.SourceNativeToken a).self, (d.SourceNativeToken a).calls)

/-- The provider after a history of calls and all the collaborator calls made. -/
def DstExecProvider.run (d : DstExecProvider) : List (Env × DstOp) → DstExecProvider × List Call
  | [] => (d, [])
  | (env, op) :: rest =>
    let r := (d.step env op).1.run rest
    (r.1, (d.step env op).2 ++ r.2)

/-- The address of the most recent `NewCommitStoreReader` call of a history. -/
def lastCommitStoreAddr : List (Env × DstOp) → Option Address
  | [] => none
  | (_, op) :: rest =>
    match lastCommitStoreAddr rest with
    | some a => some a
    | none =>
      match op with
      | .NewCommitStoreReader a => some a
      | _ => none

/-- The address of the most recent `NewOnRampReader` call of a history. -/
def lastOnRampAddress : List (Env × SrcOp) → Option Address
  | [] => none
  | (_, op) :: rest =>
    match lastOnRampAddress rest with
    | some a => some a
    | none =>
      match op with
      | .NewOnRampReader a _ _ => some a
      | _ => none

/-- Whether a call is a `NewCommitStoreReader` call. -/
def DstOp.isNewCommitStoreReader : DstOp → Bool
  | .NewCommitStoreReader _ => true
  | _ => false

/-- Whether a call is a `NewOnRampReader` call. -/
def SrcOp.isNewOnRampReader : SrcOp → Bool
  | .NewOnRampReader _ _ _ => true
  | _ => false

/-- Whether a collaborator call is a `Replay`. -/
def Call.isReplay : Call → Bool
  | .Replay _ _ => true
  | _ => false

/-- Whether a collaborator call is one of the four teardown functions. -/
def Call.isTeardown : Call → Bool
  | .CloseOnRampReader .. | .CloseUSDCReader .. | .CloseCommitStoreReader ..
  | .CloseOffRampReader .. => true
  | _ => false

/-- Whether a collaborator call is `CloseUSDCReader`. -/
def Call.isCloseUSDCReader : Call → Bool
  | .CloseUSDCReader .. => true
  | _ => false

/-- Whether a collaborator call is `CloseOnRampReader`. -/
def Call.isCloseOnRampReader : Call → Bool
  | .CloseOnRampReader .. => true
  | _ => false

/-- Whether a collaborator call is `CloseCommitStoreReader`. -/
def Call.isCloseCommitStoreReader : Call → Bool
  | .CloseCommitStoreReader .. => true
  | _ => false

/-- Whether a collaborator call is `CloseOffRampReader`. -/
def Call.isCloseOffRampReader : Call → Bool
  | .CloseOffRampReader .. => true
  | _ => false

/-- Whether a call is a reader-factory method of the source-side provider. -/
def SrcOp.isReaderFactory : SrcOp → Bool
  | .NewCommitStoreReader _ | .NewOffRampReader _ | .NewOnRampReader _ _ _
  | .NewPriceRegistryReader _ | .NewTokenDataReader _ | .NewTokenPoolBatchedReader _ _ => true
  | _ => false

/-- Whether a call is a reader-factory method of the destination-side provider. -/
def DstOp.isReaderFactory : DstOp → Bool
  | .NewCommitStoreReader _ | .NewOffRampReader _ | .NewOnRampReader _ _ _
  | .NewPriceRegistryReader _ | .NewTokenDataReader _ | .NewTokenPoolBatchedReader _ _ => true
  | _ => false

/-! ## Concrete collaborators and providers used to evaluate the code -/

/-- Collaborators that all succeed. -/
def envOk : Env where
  Replay := fun _ _ => none
  NewUSDCReader := fun _ _ _ _ _ => (some 10, none)
  CloseUSDCReader := fun _ _ _ _ => none
  NewOnRampReader := fun _ _ _ _ _ _ => (some 11, none)
  CloseOnRampReader := fun _ _ _ _ _ _ => none
  NewIncompleteSourceCommitStoreReader := fun _ _ _ => some 12
  NewIncompleteDestCommitStoreReader := fun _ _ _ _ _ => (some 13, none)
  CloseCommitStoreReader := fun _ _ _ _ _ => none
  NewOffRampReader := fun _ _ _ _ _ _ _ _ _ => (some 14, none)
  CloseOffRampReader := fun _ _ _ _ _ _ _ => none
  NewPriceRegistryReader := fun _ _ _ _ => (some 15, none)
  GenericAddrToEvm := fun a =>
    if a = "0xAA" then .ok 170 else if a = "0xBB" then .ok 187 else if a = "0xCC" then .ok 204
    else .error (.errorf "invalid address")
  EvmAddrToGeneric := fun a => if a = 170 then "0xAA" else if a = 187 then "0xBB" else "0xCC"
  ParseRequestURI := fun u =>
    if u = "not a url" then .error (.errorf "parse \"not a url\": invalid URI for request")
    else .ok u
  NewRouter := fun _ _ => (some 16, none)
  GetWrappedNative := fun _ => (204, none)
  NewEVMTokenPoolBatchedReader := fun _ _ _ _ => (some 17, none)
  GetTransactionStatus := fun _ _ => (1, none)

/-- Collaborators whose reader constructions, teardowns and replay all fail. -/
def envFail : Env :=
  { envOk with
    Replay := fun _ _ => some (.errorf "replay failed")
    NewOnRampReader := fun _ _ _ _ _ _ => (none, some (.errorf "on-ramp construction failed"))
    NewIncompleteDestCommitStoreReader := fun _ _ _ _ _ =>
      (none, some (.errorf "commit store construction failed"))
    CloseUSDCReader := fun _ _ _ _ => some (.errorf "usdc teardown failed")
    CloseOnRampReader := fun _ _ _ _ _ _ => some (.errorf "on-ramp teardown failed")
    CloseCommitStoreReader := fun _ _ _ _ _ => some (.errorf "commit store teardown failed")
    CloseOffRampReader := fun _ _ _ _ _ _ _ => some (.errorf "off-ramp teardown failed") }

/-- A USDC configuration bound to token `0xAA`. -/
def usdcCfg : USDCConfig :=
  { SourceTokenAddress := 170
    SourceMessageTransmitterAddress := 7
    AttestationAPI := "https://usdc.example/api"
    AttestationAPITimeoutSeconds := 5
    AttestationAPIIntervalMilliseconds := 100 }

/-- A USDC configuration without an attestation endpoint. -/
def usdcOff : USDCConfig :=
  { SourceTokenAddress := 170
    SourceMessageTransmitterAddress := 7
    AttestationAPI := ""
    AttestationAPITimeoutSeconds := 0
    AttestationAPIIntervalMilliseconds := 0 }

/-- An LBTC configuration bound to token `0xBB`. -/
def lbtcCfg : LBTCConfig :=
  { SourceTokenAddress := 187
    AttestationAPI := "https://lbtc.example/api"
    AttestationAPITimeoutSeconds := 6
    AttestationAPIIntervalMilliseconds := 200 }

/-- An LBTC configuration bound to token `0xBB` with a malformed endpoint. -/
def lbtcBad : LBTCConfig :=
  { SourceTokenAddress := 187
    AttestationAPI := "not a url"
    AttestationAPITimeoutSeconds := 6
    AttestationAPIIntervalMilliseconds := 200 }

/-- The source-side provider that `NewSrcExecProvider` builds for job `job-1`
    from `usdc` and `lbtc`, with the given start block. -/
def srcOf (usdc : USDCConfig) (lbtc : LBTCConfig) (startBlock : Nat) : SrcExecProvider :=
  { lggr := ⟨"SrcExecProvider"⟩
    versionFinder := 1
    client := 2
    lp := 3
    startBlock := startBlock
    estimator := 4
    maxGasPrice := some 1000
    usdcReader := if usdc.AttestationAPI = "" then none else some 10
    usdcConfig := usdc
    lbtcConfig := lbtc
    feeEstimatorConfig := 5
    seenOnRampAddress := none
    seenSourceChainSelector := none
    seenDestChainSelector := none }

/-- The destination-side provider that `NewDstExecProvider` builds for the
    off-ramp `0xOFF`, with the given start block. -/
def dstOf (startBlock : Nat) : DstExecProvider :=
  { lggr := ⟨"DstExecProvider"⟩
    versionFinder := 1
    client := 2
    lp := 3
    startBlock := startBlock
    contractTransmitter := 6
    configWatcher := 7
    gasEstimator := 4
    maxGasPrice := 1000
    feeEstimatorConfig := 5
    txm := 8
    offRampAddress := "0xOFF"
    seenCommitStoreAddr := none }

/-! ## Lemmas shared by the theorems -/

theorem toInt64_of_lt (x : Nat) (h : x < 2 ^ 63) : toInt64 x = (x : Int) := by
  have h1 : x % 2 ^ 64 = x := Nat.mod_eq_of_lt (by omega)
  unfold toInt64
  rw [h1, if_pos h]

theorem toInt64_of_ge (x : Nat) (h1 : 2 ^ 63 ≤ x) (h2 : x < 2 ^ 64) :
    toInt64 x = (x : Int) - 2 ^ 64 := by
  have h3 : x % 2 ^ 64 = x := Nat.mod_eq_of_lt h2
  have h4 : ¬ x < 2 ^ 63 := by omega
  unfold toInt64
  rw [h3, if_neg h4]

theorem SrcExecProvider.src_step_self (env : Env) (s : SrcExecProvider) (op : SrcOp) :
    (s.step env op).1 =
      match op with
      | .NewOnRampReader a _ _ => { s with seenOnRampAddress := some a }
      | _ => s := by
  cases op <;> simp only [SrcExecProvider.step, SrcExecProvider.Start,
    SrcExecProvider.GetTransactionStatus, SrcExecProvider.NewCommitStoreReader,
    SrcExecProvider.NewOffRampReader, SrcExecProvider.NewOnRampReader,
    SrcExecProvider.NewPriceRegistryReader, SrcExecProvider.NewTokenDataReader,
    SrcExecProvider.NewTokenPoolBatchedReader, SrcExecProvider.SourceNativeToken]
  all_goals (repeat' split) <;> rfl

theorem DstExecProvider.dst_step_self (env : Env) (d : DstExecProvider) (op : DstOp) :
    (d.step env op).1 =
      match op with
      | .NewCommitStoreReader a => { d with seenCommitStoreAddr := some a }
      | _ => d := by
  cases op <;> simp only [DstExecProvider.step, DstExecProvider.Start,
    DstExecProvider.GetTransactionStatus, DstExecProvider.NewCommitStoreReader,
    DstExecProvider.NewOffRampReader, DstExecProvider.NewOnRampReader,
    DstExecProvider.NewPriceRegistryReader, DstExecProvider.NewTokenDataReader,
    DstExecProvider.NewTokenPoolBatchedReader, DstExecProvider.SourceNativeToken]
  all_goals (repeat' split) <;> rfl

theorem SrcExecProvider.src_run_self (s : SrcExecProvider) (hist : List (Env × SrcOp)) :
    (s.run hist).1 =
      { s with seenOnRampAddress :=
          match lastOnRampAddress hist with
          | some a => some a
          | none => s.seenOnRampAddress } := by
  induction hist generalizing s with
  | nil => rfl
  | cons e rest ih =>
    obtain ⟨env, op⟩ := e
    simp only [SrcExecProvider.run, lastOnRampAddress]
    rw [ih, SrcExecProvider.src_step_self]
    cases hl : lastOnRampAddress rest <;> cases op <;> rfl

theorem DstExecProvider.dst_run_self (d : DstExecProvider) (hist : List (Env × DstOp)) :
    (d.run hist).1 =
      { d with seenCommitStoreAddr :=
          match lastCommitStoreAddr hist with
          | some a => some a
          | none => d.seenCommitStoreAddr } := by
  induction hist generalizing d with
  | nil => rfl
  | cons e rest ih =>
    obtain ⟨env, op⟩ := e
    simp only [DstExecProvider.run, lastCommitStoreAddr]
    rw [ih, DstExecProvider.dst_step_self]
    cases hl : lastCommitStoreAddr rest <;> cases op <;> rfl

theorem lastOnRampAddress_eq_none (hist : List (Env × SrcOp)) :
    lastOnRampAddress hist = none ↔ ∀ e ∈ hist, e.2.isNewOnRampReader = false := by
  induction hist with
  | nil => simp [lastOnRampAddress]
  | cons e rest ih =>
    obtain ⟨env, op⟩ := e
    simp only [lastOnRampAddress, List.mem_cons, forall_eq_or_imp]
    cases hl : lastOnRampAddress rest with
    | some a =>
      have h1 : ¬ ∀ e ∈ rest, e.2.isNewOnRampReader = false := fun h => by
        rw [ih.mpr h] at hl; cases hl
      constructor
      · intro h; cases h
      · intro h; exact absurd h.2 h1
    | none =>
      have h1 := ih.mp hl
      constructor
      · intro h
        refine ⟨?_, h1⟩
        cases op <;> first | rfl | cases h
      · intro h
        cases op <;> first | rfl | cases h.1

theorem lastCommitStoreAddr_eq_none (hist : List (Env × DstOp)) :
    lastCommitStoreAddr hist = none ↔ ∀ e ∈ hist, e.2.isNewCommitStoreReader = false := by
  induction hist with
  | nil => simp [lastCommitStoreAddr]
  | cons e rest ih =>
    obtain ⟨env, op⟩ := e
    simp only [lastCommitStoreAddr, List.mem_cons, forall_eq_or_imp]
    cases hl : lastCommitStoreAddr rest with
    | some a =>
      have h1 : ¬ ∀ e ∈ rest, e.2.isNewCommitStoreReader = false := fun h => by
        rw [ih.mpr h] at hl; cases hl
      constructor
      · intro h; cases h
      · intro h; exact absurd h.2 h1
    | none =>
      have h1 := ih.mp hl
      constructor
      · intro h
        refine ⟨?_, h1⟩
        cases op <;> first | rfl | cases h
      · intro h
        cases op <;> first | rfl | cases h.1

theorem NewSrcExecProvider_some (env : Env) (lggr : Logger) (versionFinder client estimator : Handle)
    (maxGasPrice : Option Int) (lp : Handle) (startBlock : Nat) (jobID : String)
    (usdcConfig : USDCConfig) (lbtcConfig : LBTCConfig) (feeEstimatorConfig : Handle)
    (s : SrcExecProvider)
    (hs : (NewSrcExecProvider env lggr versionFinder client estimator maxGasPrice lp startBlock
      jobID usdcConfig lbtcConfig feeEstimatorConfig).1.1 = some s) :
    ∃ usdcReader, s =
      { lggr := lggr.Named "SrcExecProvider"
        versionFinder := versionFinder
        client := client
        lp := lp
        startBlock := startBlock
        estimator := estimator
        maxGasPrice := maxGasPrice
        usdcReader := usdcReader
        usdcConfig := usdcConfig
        lbtcConfig := lbtcConfig
        feeEstimatorConfig := feeEstimatorConfig
        seenOnRampAddress := none
        seenSourceChainSelector := none
        seenDestChainSelector := none } := by
  unfold NewSrcExecProvider at hs
  simp only at hs
  split at hs
  · split at hs
    · cases hs
    · simp only [Option.some.injEq] at hs
      exact ⟨_, hs.symm⟩
  · simp only [Option.some.injEq] at hs
    exact ⟨_, hs.symm⟩

theorem NewDstExecProvider_some (lggr : Logger) (versionFinder client lp : Handle)
    (startBlock : Nat) (contractTransmitter configWatcher gasEstimator : Handle)
    (maxGasPrice : Int) (feeEstimatorConfig txm : Handle) (offRampAddress : Address)
    (d : DstExecProvider)
    (hd : (NewDstExecProvider lggr versionFinder client lp startBlock contractTransmitter
      configWatcher gasEstimator maxGasPrice feeEstimatorConfig txm offRampAddress).1 = some d) :
    d =
      { lggr := lggr.Named "DstExecProvider"
        versionFinder := versionFinder
        client := client
        lp := lp
        startBlock := startBlock
        contractTransmitter := contractTransmitter
        configWatcher := configWatcher
        gasEstimator := gasEstimator
        maxGasPrice := maxGasPrice
        feeEstimatorConfig := feeEstimatorConfig
        txm := txm
        offRampAddress := offRampAddress
        seenCommitStoreAddr := none } := by
  simp only [NewDstExecProvider, Option.some.injEq] at hd
  exact hd.symm

theorem SrcExecProvider.Close_of_unseen (env : Env) (s : SrcExecProvider)
    (h : s.seenOnRampAddress = none) :
    s.Close env =
      if s.usdcConfig.AttestationAPI = "" then ⟨some none, []⟩
      else
        ⟨some (env.CloseUSDCReader s.lggr s.lggr.Name
            s.usdcConfig.SourceMessageTransmitterAddress s.lp),
          [Call.CloseUSDCReader s.lggr s.lggr.Name
            s.usdcConfig.SourceMessageTransmitterAddress s.lp]⟩ := by
  by_cases hA : s.usdcConfig.AttestationAPI = ""
  · simp [SrcExecProvider.Close, runUnregisterFuncs, SrcExecProvider.closeOnRamp,
      SrcExecProvider.closeUSDC, h, hA]
  · cases hr : env.CloseUSDCReader s.lggr s.lggr.Name
      s.usdcConfig.SourceMessageTransmitterAddress s.lp <;>
    simp [SrcExecProvider.Close, runUnregisterFuncs, SrcExecProvider.closeOnRamp,
      SrcExecProvider.closeUSDC, h, hA, hr, multierrAppend]

theorem DstExecProvider.Close_eq (env : Env) (d : DstExecProvider) :
    d.Close env =
      match d.seenCommitStoreAddr with
      | none =>
        ⟨some (env.CloseOffRampReader d.lggr d.offRampAddress d.client d.lp none 0
            d.feeEstimatorConfig),
          [Call.CloseOffRampReader d.lggr d.offRampAddress d.client d.lp none 0
            d.feeEstimatorConfig]⟩
      | some addr =>
        ⟨some (multierrAppend
            (env.CloseCommitStoreReader d.lggr addr d.client d.lp d.feeEstimatorConfig)
            (env.CloseOffRampReader d.lggr d.offRampAddress d.client d.lp none 0
              d.feeEstimatorConfig)),
          [Call.CloseCommitStoreReader d.lggr addr d.client d.lp d.feeEstimatorConfig,
           Call.CloseOffRampReader d.lggr d.offRampAddress d.client d.lp none 0
            d.feeEstimatorConfig]⟩ := by
  cases hseen : d.seenCommitStoreAddr with
  | none =>
    cases hr : env.CloseOffRampReader d.lggr d.offRampAddress d.client d.lp none 0
      d.feeEstimatorConfig <;>
    simp [DstExecProvider.Close, runUnregisterFuncs, DstExecProvider.closeCommitStore,
      DstExecProvider.closeOffRamp, hseen, hr, multierrAppend]
  | some addr =>
    cases hc : env.CloseCommitStoreReader d.lggr addr d.client d.lp d.feeEstimatorConfig <;>
    cases hr : env.CloseOffRampReader d.lggr d.offRampAddress d.client d.lp none 0
      d.feeEstimatorConfig <;>
    simp [DstExecProvider.Close, runUnregisterFuncs, DstExecProvider.closeCommitStore,
      DstExecProvider.closeOffRamp, hseen, hc, hr, multierrAppend]

theorem SrcOp.not_onRamp_of_not_factory (op : SrcOp) (h : op.isReaderFactory = false) :
    op.isNewOnRampReader = false := by
  cases op <;> first | rfl | cases h

theorem DstOp.not_commitStore_of_not_factory (op : DstOp) (h : op.isReaderFactory = false) :
    op.isNewCommitStoreReader = false := by
  cases op <;> first | rfl | cases h

theorem multierrAppend_eq_none_iff (r1 r2 : Option GoError) :
    multierrAppend r1 r2 = none ↔ r1 = none ∧ r2 = none := by
  cases r1 <;> cases r2 <;> simp [multierrAppend]

theorem multierrErrors_append (r1 r2 : Option GoError) :
    multierrErrors (multierrAppend r1 r2) = multierrErrors r1 ++ multierrErrors r2 := by
  cases r1 <;> cases r2 <;> simp [multierrAppend, multierrErrors, GoError.Errors]

theorem wrapInt64_of_range (z : Int) (h1 : -(2 ^ 63) ≤ z) (h2 : z < 2 ^ 63) :
    wrapInt64 z = z := by
  unfold wrapInt64
  rw [Int.emod_eq_of_lt (by omega) (by omega)]
  omega

theorem lastCommitStoreAddr_append (pre post : List (Env × DstOp)) (env : Env) (a : Address)
    (hpost : ∀ e ∈ post, e.2.isNewCommitStoreReader = false) :
    lastCommitStoreAddr (pre ++ (env, DstOp.NewCommitStoreReader a) :: post) = some a := by
  have hp : lastCommitStoreAddr post = none := (lastCommitStoreAddr_eq_none post).mpr hpost
  induction pre with
  | nil => simp [lastCommitStoreAddr, hp]
  | cons e rest ih =>
    obtain ⟨env1, op⟩ := e
    simp [lastCommitStoreAddr, ih]

/-! ## Teardown of the source-side provider after `NewOnRampReader` -/

/-- C1 (defect of the code): on a provider built by `NewSrcExecProvider`, after
    any history in which `NewOnRampReader` was called at least once, `Close`
    panics: the address was recorded but the two selectors were not, so the
    nil source selector is dereferenced, and `CloseOnRampReader` is never
    invoked. -/
theorem C1_close_after_NewOnRampReader_panics (env : Env) (lggr : Logger)
    (versionFinder client estimator : Handle) (maxGasPrice : Option Int) (lp : Handle)
    (startBlock : Nat) (jobID : String) (usdcConfig : USDCConfig) (lbtcConfig : LBTCConfig)
    (feeEstimatorConfig : Handle) (s : SrcExecProvider)
    (hs : (NewSrcExecProvider env lggr versionFinder client estimator maxGasPrice lp startBlock
      jobID usdcConfig lbtcConfig feeEstimatorConfig).1.1 = some s)
    (hist : List (Env × SrcOp)) (hcalled : ∃ e ∈ hist, e.2.isNewOnRampReader = true)
    (envC : Env) :
    (s.run hist).1.seenOnRampAddress ≠ none ∧
    (s.run hist).1.seenSourceChainSelector = none ∧
    (s.run hist).1.seenDestChainSelector = none ∧
    (SrcExecProvider.Close envC (s.run hist).1).value = none ∧
    (SrcExecProvider.Close envC (s.run hist).1).calls = [] := by
  obtain ⟨r, rfl⟩ := NewSrcExecProvider_some env lggr versionFinder client estimator maxGasPrice
    lp startBlock jobID usdcConfig lbtcConfig feeEstimatorConfig s hs
  have hne : lastOnRampAddress hist ≠ none := by
    intro h0
    obtain ⟨e, he, hb⟩ := hcalled
    rw [(lastOnRampAddress_eq_none hist).mp h0 e he] at hb
    cases hb
  obtain ⟨a, hlast⟩ := Option.ne_none_iff_exists'.mp hne
  rw [SrcExecProvider.src_run_self, hlast]
  simp [SrcExecProvider.Close, runUnregisterFuncs, SrcExecProvider.closeOnRamp]

/-- C1, evaluated: a provider built with working collaborators, one successful
    `NewOnRampReader("0xAA", 1, 2)`, then `Close`. -/
theorem C1_close_after_NewOnRampReader_panics_witness :
    (NewSrcExecProvider envOk ⟨""⟩ 1 2 4 (some 1000) 3 0 "job-1" usdcCfg lbtcCfg 5).1.1
      = some (srcOf usdcCfg lbtcCfg 0) ∧
    ((srcOf usdcCfg lbtcCfg 0).NewOnRampReader envOk "0xAA" 1 2).ret = (some 11, none) ∧
    ((srcOf usdcCfg lbtcCfg 0).run
      [(envOk, SrcOp.NewOnRampReader "0xAA" 1 2)]).1.seenOnRampAddress = some "0xAA" ∧
    (SrcExecProvider.Close envOk
      ((srcOf usdcCfg lbtcCfg 0).run [(envOk, SrcOp.NewOnRampReader "0xAA" 1 2)]).1).value = none ∧
    (SrcExecProvider.Close envOk
      ((srcOf usdcCfg lbtcCfg 0).run [(envOk, SrcOp.NewOnRampReader "0xAA" 1 2)]).1).calls = [] :=
  ⟨rfl, rfl, rfl,
    (C1_close_after_NewOnRampReader_panics envOk ⟨""⟩ 1 2 4 (some 1000) 3 0 "job-1" usdcCfg
      lbtcCfg 5 (srcOf usdcCfg lbtcCfg 0) rfl [(envOk, SrcOp.NewOnRampReader "0xAA" 1 2)]
      ⟨_, List.mem_singleton.mpr rfl, rfl⟩ envOk).2.2.2⟩

/-! ## `Close` on a provider without readers -/

/-- C2 (the claim fails): a destination-side provider just built, on which no
    method was called, still invokes the off-ramp teardown in `Close`; and a
    source-side provider just built with a USDC attestation endpoint invokes
    the USDC teardown and returns its error. -/
theorem C2_counterexample :
    (NewDstExecProvider ⟨""⟩ 1 2 3 0 6 7 4 1000 5 8 "0xOFF").1 = some (dstOf 0) ∧
    ¬ ((DstExecProvider.Close envOk (dstOf 0)).value = some none ∧
       (DstExecProvider.Close envOk (dstOf 0)).calls.filter Call.isTeardown = []) ∧
    (NewSrcExecProvider envOk ⟨""⟩ 1 2 4 (some 1000) 3 0 "job-1" usdcCfg lbtcCfg 5).1.1
      = some (srcOf usdcCfg lbtcCfg 0) ∧
    ¬ ((SrcExecProvider.Close envFail (srcOf usdcCfg lbtcCfg 0)).value = some none ∧
       (SrcExecProvider.Close envFail (srcOf usdcCfg lbtcCfg 0)).calls.filter Call.isTeardown
        = []) := by
  refine ⟨rfl, ?_, rfl, ?_⟩
  · intro h
    have h2 := h.2
    rw [DstExecProvider.Close_eq] at h2
    simp [dstOf, Call.isTeardown] at h2
  · intro h
    have h2 := h.2
    rw [SrcExecProvider.Close_of_unseen _ _ rfl] at h2
    simp [srcOf, usdcCfg, Call.isTeardown] at h2

/-- C2 (amended): on a provider on which no reader-factory method has been
    called, `Close` invokes no on-ramp and no commit-store teardown. On the
    source side it invokes nothing and returns nil when no USDC attestation
    endpoint is configured, and otherwise invokes `CloseUSDCReader` exactly
    once and returns what it returned. On the destination side it invokes
    `CloseOffRampReader` exactly once, with the off-ramp address of the
    construction, and returns what it returned. -/
theorem C2_close_without_reader_factory (envC : Env) :
    (∀ (env : Env) (lggr : Logger) (versionFinder client estimator : Handle)
      (maxGasPrice : Option Int) (lp : Handle) (startBlock : Nat) (jobID : String)
      (usdcConfig : USDCConfig) (lbtcConfig : LBTCConfig) (feeEstimatorConfig : Handle)
      (s : SrcExecProvider),
      (NewSrcExecProvider env lggr versionFinder client estimator maxGasPrice lp startBlock
        jobID usdcConfig lbtcConfig feeEstimatorConfig).1.1 = some s →
      ∀ hist : List (Env × SrcOp), (∀ e ∈ hist, e.2.isReaderFactory = false) →
        (usdcConfig.AttestationAPI = "" →
          (SrcExecProvider.Close envC (s.run hist).1).value = some none ∧
          (SrcExecProvider.Close envC (s.run hist).1).calls = []) ∧
        (usdcConfig.AttestationAPI ≠ "" →
          (SrcExecProvider.Close envC (s.run hist).1).value =
            some (envC.CloseUSDCReader (lggr.Named "SrcExecProvider")
              (lggr.Named "SrcExecProvider").Name usdcConfig.SourceMessageTransmitterAddress
              lp) ∧
          (SrcExecProvider.Close envC (s.run hist).1).calls =
            [Call.CloseUSDCReader (lggr.Named "SrcExecProvider")
              (lggr.Named "SrcExecProvider").Name usdcConfig.SourceMessageTransmitterAddress
              lp])) ∧
    (∀ (lggr : Logger) (versionFinder client lp : Handle) (startBlock : Nat)
      (contractTransmitter configWatcher gasEstimator : Handle) (maxGasPrice : Int)
      (feeEstimatorConfig txm : Handle) (offRampAddress : Address) (d : DstExecProvider),
      (NewDstExecProvider lggr versionFinder client lp startBlock contractTransmitter
        configWatcher gasEstimator maxGasPrice feeEstimatorConfig txm offRampAddress).1 = some d →
      ∀ hist : List (Env × DstOp), (∀ e ∈ hist, e.2.isReaderFactory = false) →
        (DstExecProvider.Close envC (d.run hist).1).value =
          some (envC.CloseOffRampReader (lggr.Named "DstExecProvider") offRampAddress client lp
            none 0 feeEstimatorConfig) ∧
        (DstExecProvider.Close envC (d.run hist).1).calls =
          [Call.CloseOffRampReader (lggr.Named "DstExecProvider") offRampAddress client lp
            none 0 feeEstimatorConfig]) := by
  constructor
  · intro env lggr versionFinder client estimator maxGasPrice lp startBlock jobID usdcConfig
      lbtcConfig feeEstimatorConfig s hs hist hS
    obtain ⟨r, rfl⟩ := NewSrcExecProvider_some env lggr versionFinder client estimator
      maxGasPrice lp startBlock jobID usdcConfig lbtcConfig feeEstimatorConfig s hs
    have hl : lastOnRampAddress hist = none :=
      (lastOnRampAddress_eq_none hist).mpr
        (fun e he => SrcOp.not_onRamp_of_not_factory e.2 (hS e he))
    rw [SrcExecProvider.src_run_self, hl, SrcExecProvider.Close_of_unseen _ _ rfl]
    refine ⟨fun h => ?_, fun h => ?_⟩
    · simp [h]
    · simp [h]
  · intro lggr versionFinder client lp startBlock contractTransmitter configWatcher
      gasEstimator maxGasPrice feeEstimatorConfig txm offRampAddress d hd hist hD
    have hd1 := NewDstExecProvider_some lggr versionFinder client lp startBlock
      contractTransmitter configWatcher gasEstimator maxGasPrice feeEstimatorConfig txm
      offRampAddress d hd
    subst hd1
    have hl : lastCommitStoreAddr hist = none :=
      (lastCommitStoreAddr_eq_none hist).mpr
        (fun e he => DstOp.not_commitStore_of_not_factory e.2 (hD e he))
    rw [DstExecProvider.dst_run_self, hl, DstExecProvider.Close_eq]
    exact ⟨rfl, rfl⟩

/-- C2 (amended), evaluated: providers built with and for the sample
    configuration, after `Start` and `Name`, closed with failing teardowns. -/
theorem C2_close_without_reader_factory_witness :
    (SrcExecProvider.Close envFail
      ((srcOf usdcCfg lbtcCfg 0).run [(envOk, SrcOp.Start), (envOk, SrcOp.Name)]).1).calls =
      [Call.CloseUSDCReader ⟨"SrcExecProvider"⟩ "SrcExecProvider" 7 3] ∧
    (DstExecProvider.Close envFail
      ((dstOf 0).run [(envOk, DstOp.Start), (envOk, DstOp.Name)]).1).calls =
      [Call.CloseOffRampReader ⟨"DstExecProvider"⟩ "0xOFF" 2 3 none 0 5] :=
  ⟨(((C2_close_without_reader_factory envFail).1 envOk ⟨""⟩ 1 2 4 (some 1000) 3 0 "job-1"
      usdcCfg lbtcCfg 5 (srcOf usdcCfg lbtcCfg 0) rfl [(envOk, SrcOp.Start), (envOk, SrcOp.Name)]
      (by decide)).2 (by decide)).2,
   ((C2_close_without_reader_factory envFail).2 ⟨""⟩ 1 2 3 0 6 7 4 1000 5 8 "0xOFF" (dstOf 0)
      rfl [(envOk, DstOp.Start), (envOk, DstOp.Name)] (by decide)).2⟩

/-! ## Aggregation of teardown failures on the destination side -/

/-- C3: on a destination-side provider with a recorded commit-store address,
    whatever the two teardowns return, `Close` invokes `CloseCommitStoreReader`
    and then `CloseOffRampReader`, once each; its result is nil exactly when
    both returned nil; it is the one error when only one step failed, and the
    flattened `multiError` of both, in step order, when both failed. -/
theorem C3_dst_close_aggregates (env : Env) (d : DstExecProvider) (addr : Address)
    (hseen : d.seenCommitStoreAddr = some addr) (r1 r2 : Option GoError)
    (h1 : env.CloseCommitStoreReader d.lggr addr d.client d.lp d.feeEstimatorConfig = r1)
    (h2 : env.CloseOffRampReader d.lggr d.offRampAddress d.client d.lp none 0
      d.feeEstimatorConfig = r2) :
    (d.Close env).calls =
      [Call.CloseCommitStoreReader d.lggr addr d.client d.lp d.feeEstimatorConfig,
       Call.CloseOffRampReader d.lggr d.offRampAddress d.client d.lp none 0
        d.feeEstimatorConfig] ∧
    (d.Close env).value = some (multierrAppend r1 r2) ∧
    (multierrAppend r1 r2 = none ↔ r1 = none ∧ r2 = none) ∧
    multierrErrors (multierrAppend r1 r2) = multierrErrors r1 ++ multierrErrors r2 ∧
    (∀ e1, r1 = some e1 → r2 = none → (d.Close env).value = some (some e1)) ∧
    (∀ e2, r1 = none → r2 = some e2 → (d.Close env).value = some (some e2)) ∧
    (∀ e1 e2, r1 = some e1 → r2 = some e2 →
      (d.Close env).value = some (some (.multi (e1.Errors ++ e2.Errors)))) := by
  have hv : (d.Close env).value = some (multierrAppend r1 r2) := by
    rw [DstExecProvider.Close_eq, hseen]
    simp only [h1, h2]
  refine ⟨?_, hv, multierrAppend_eq_none_iff r1 r2, multierrErrors_append r1 r2, ?_, ?_, ?_⟩
  · rw [DstExecProvider.Close_eq, hseen]
  · intro e1 he1 he2
    rw [hv, he1, he2]; rfl
  · intro e2 he1 he2
    rw [hv, he1, he2]; rfl
  · intro e1 e2 he1 he2
    rw [hv, he1, he2]; rfl

/-- C3, evaluated: both teardowns fail; both are invoked and both errors are in
    the result. -/
theorem C3_dst_close_aggregates_witness :
    (DstExecProvider.Close envFail { dstOf 0 with seenCommitStoreAddr := some "0xCS" }).calls =
      [Call.CloseCommitStoreReader ⟨"DstExecProvider"⟩ "0xCS" 2 3 5,
       Call.CloseOffRampReader ⟨"DstExecProvider"⟩ "0xOFF" 2 3 none 0 5] ∧
    (DstExecProvider.Close envFail { dstOf 0 with seenCommitStoreAddr := some "0xCS" }).value =
      some (some (.multi [.errorf "commit store teardown failed",
        .errorf "off-ramp teardown failed"])) :=
  have h := C3_dst_close_aggregates envFail { dstOf 0 with seenCommitStoreAddr := some "0xCS" }
    "0xCS" rfl (some (.errorf "commit store teardown failed"))
    (some (.errorf "off-ramp teardown failed")) rfl rfl
  ⟨h.1, h.2.2.2.2.2.2 _ _ rfl rfl⟩

/-! ## Token-address dispatch -/

/-- C4: for a token address that parses to `t` and well-formed endpoints,
    `NewTokenDataReader` returns the USDC reader, built from the USDC endpoint,
    timeout and interval, when `t` is the USDC token (also when the LBTC
    configuration has the same address); otherwise the LBTC reader, built from
    the LBTC endpoint, timeout and interval, when `t` is the LBTC token;
    otherwise no reader and the error `unsupported token address`. The timeout
    reaches the reader as `int(seconds)` and the interval as the duration
    `milliseconds * time.Millisecond`, which are the configured numbers
    whenever those fit 64 signed bits. -/
theorem C4_token_dispatch (env : Env) (s : SrcExecProvider) (tokenAddress : Address)
    (t : EvmAddress) (ht : env.GenericAddrToEvm tokenAddress = .ok t) :
    (t = s.usdcConfig.SourceTokenAddress →
      ∀ uri, env.ParseRequestURI s.usdcConfig.AttestationAPI = .ok uri →
        (s.NewTokenDataReader env tokenAddress).ret =
          (some (.USDC s.lggr s.usdcReader uri
            (toInt64 s.usdcConfig.AttestationAPITimeoutSeconds) t
            (wrapInt64 (s.usdcConfig.AttestationAPIIntervalMilliseconds * 1000000))), none)) ∧
    (t ≠ s.usdcConfig.SourceTokenAddress → t = s.lbtcConfig.SourceTokenAddress →
      ∀ uri, env.ParseRequestURI s.lbtcConfig.AttestationAPI = .ok uri →
        (s.NewTokenDataReader env tokenAddress).ret =
          (some (.LBTC s.lggr uri
            (toInt64 s.lbtcConfig.AttestationAPITimeoutSeconds) t
            (wrapInt64 (s.lbtcConfig.AttestationAPIIntervalMilliseconds * 1000000))), none)) ∧
    (t ≠ s.usdcConfig.SourceTokenAddress → t ≠ s.lbtcConfig.SourceTokenAddress →
      (s.NewTokenDataReader env tokenAddress).ret =
        (none, some (.errorf ("unsupported token address: " ++ tokenAddress)))) ∧
    (∀ seconds : Nat, seconds < 2 ^ 63 → toInt64 seconds = (seconds : Int)) ∧
    (∀ ms : Int, -(2 ^ 63) ≤ ms * 1000000 → ms * 1000000 < 2 ^ 63 →
      wrapInt64 (ms * 1000000) = ms * 1000000) := by
  refine ⟨?_, ?_, ?_, toInt64_of_lt, fun ms h1 h2 => wrapInt64_of_range _ h1 h2⟩
  · intro hu uri hp
    simp [SrcExecProvider.NewTokenDataReader, ht, hu, hp, Millisecond]
  · intro hu hl uri hp
    subst hl
    simp [SrcExecProvider.NewTokenDataReader, ht, hu, hp, Millisecond]
  · intro hu hl
    simp [SrcExecProvider.NewTokenDataReader, ht, hu, hl]

/-- C4, evaluated: with USDC bound to `0xAA` and LBTC to `0xBB`, resolving
    `0xAA` gives the USDC reader with the USDC endpoint, 5 seconds and 100 ms,
    and resolving the unconfigured `0xCC` fails as unsupported. -/
theorem C4_token_dispatch_witness :
    ((srcOf usdcCfg lbtcCfg 0).NewTokenDataReader envOk "0xAA").ret =
      (some (.USDC ⟨"SrcExecProvider"⟩ (some 10) "https://usdc.example/api" 5 170 100000000),
        none) ∧
    ((srcOf usdcCfg lbtcCfg 0).NewTokenDataReader envOk "0xCC").ret =
      (none, some (.errorf "unsupported token address: 0xCC")) :=
  ⟨(C4_token_dispatch envOk (srcOf usdcCfg lbtcCfg 0) "0xAA" 170 rfl).1 rfl
      "https://usdc.example/api" rfl,
   (C4_token_dispatch envOk (srcOf usdcCfg lbtcCfg 0) "0xCC" 204 rfl).2.2.1
      (by decide) (by decide)⟩

/-- C5 (defect of the code): when the token is the LBTC token (and not the USDC
    token) and the LBTC attestation endpoint does not parse, the error returned
    wraps the parse error, but under the message of the USDC branch:
    `failed to parse USDC attestation API`. -/
theorem C5_lbtc_parse_error_names_usdc (env : Env) (s : SrcExecProvider)
    (tokenAddress : Address) (t : EvmAddress) (e : GoError)
    (ht : env.GenericAddrToEvm tokenAddress = .ok t)
    (hu : t ≠ s.usdcConfig.SourceTokenAddress) (hl : t = s.lbtcConfig.SourceTokenAddress)
    (hp : env.ParseRequestURI s.lbtcConfig.AttestationAPI = .error e) :
    (s.NewTokenDataReader env tokenAddress).ret =
      (none, some (.wrapf "failed to parse USDC attestation API" e)) := by
  subst hl
  simp [SrcExecProvider.NewTokenDataReader, ht, hu, hp]

/-- C5, evaluated: USDC bound to `0xAA` with a good endpoint, LBTC bound to
    `0xBB` with the endpoint `not a url`; resolving `0xBB`. -/
theorem C5_lbtc_parse_error_names_usdc_witness :
    ((srcOf usdcCfg lbtcBad 0).NewTokenDataReader envOk "0xBB").ret =
      (none, some (.wrapf "failed to parse USDC attestation API"
        (.errorf "parse \"not a url\": invalid URI for request"))) :=
  C5_lbtc_parse_error_names_usdc envOk (srcOf usdcCfg lbtcBad 0) "0xBB" 187 _ rfl
    (by decide) rfl rfl

/-! ## `Start` -/

/-- C6 (the claim fails): with the start block `2^63`, a 64-bit unsigned value,
    `Start` replays from `int64(2^63) = -2^63`, not from `2^63`. -/
theorem C6_counterexample :
    (2 : Nat) ^ 63 < 2 ^ 64 ∧
    ((srcOf usdcCfg lbtcCfg (2 ^ 63)).Start envOk).calls.filter Call.isReplay =
      [Call.Replay 3 (-(2 ^ 63))] ∧
    ¬ (((srcOf usdcCfg lbtcCfg (2 ^ 63)).Start envOk).calls.filter Call.isReplay =
      [Call.Replay 3 (((2 ^ 63 : Nat) : Int))]) := by
  decide

/-- C6 (amended): for both providers and every 64-bit unsigned start block `N`:
    when `N = 0`, `Start` makes no `Replay` call and returns nil; when `N > 0`,
    it makes exactly one `Replay` call, with the offset `int64(N)`, and returns
    exactly what `Replay` returned; `int64(N)` is `N` when `N < 2^63` and
    `N - 2^64` otherwise. The provider is left unchanged. -/
theorem C6_start_replays (env : Env) (s : SrcExecProvider) (d : DstExecProvider) :
    (s.startBlock = 0 →
      ((s.Start env).calls.filter Call.isReplay = [] ∧ (s.Start env).ret = none)) ∧
    (0 < s.startBlock →
      ((s.Start env).calls.filter Call.isReplay = [Call.Replay s.lp (toInt64 s.startBlock)] ∧
       (s.Start env).ret = env.Replay s.lp (toInt64 s.startBlock))) ∧
    (s.Start env).self = s ∧
    (d.startBlock = 0 →
      ((d.Start env).calls.filter Call.isReplay = [] ∧ (d.Start env).ret = none)) ∧
    (0 < d.startBlock →
      ((d.Start env).calls.filter Call.isReplay = [Call.Replay d.lp (toInt64 d.startBlock)] ∧
       (d.Start env).ret = env.Replay d.lp (toInt64 d.startBlock))) ∧
    (d.Start env).self = d ∧
    (∀ N : Nat, N < 2 ^ 63 → toInt64 N = (N : Int)) ∧
    (∀ N : Nat, 2 ^ 63 ≤ N → N < 2 ^ 64 → toInt64 N = (N : Int) - 2 ^ 64) := by
  refine ⟨?_, ?_, ?_, ?_, ?_, ?_, toInt64_of_lt, toInt64_of_ge⟩
  · intro h
    simp [SrcExecProvider.Start, h]
  · intro h
    have h0 : s.startBlock ≠ 0 := by omega
    simp [SrcExecProvider.Start, h0, Call.isReplay]
  · unfold SrcExecProvider.Start
    split <;> rfl
  · intro h
    simp [DstExecProvider.Start, h]
  · intro h
    have h0 : d.startBlock ≠ 0 := by omega
    simp [DstExecProvider.Start, h0, Call.isReplay]
  · unfold DstExecProvider.Start
    split <;> rfl

/-- C6 (amended), evaluated: start block 42 on the source side with a failing
    replay, start block 0 on the destination side. -/
theorem C6_start_replays_witness :
    (((srcOf usdcCfg lbtcCfg 42).Start envFail).calls.filter Call.isReplay =
        [Call.Replay 3 (toInt64 42)] ∧
      ((srcOf usdcCfg lbtcCfg 42).Start envFail).ret = some (.errorf "replay failed")) ∧
    (((dstOf 0).Start envFail).calls.filter Call.isReplay = [] ∧
      ((dstOf 0).Start envFail).ret = none) ∧
    toInt64 42 = 42 ∧
    toInt64 (2 ^ 63) = -(2 ^ 63) :=
  have h := C6_start_replays envFail (srcOf usdcCfg lbtcCfg 42) (dstOf 0)
  ⟨h.2.1 (by decide), h.2.2.2.1 rfl, h.2.2.2.2.2.2.1 42 (by decide),
    h.2.2.2.2.2.2.2 (2 ^ 63) (by decide) (by decide)⟩

/-! ## Role misuse -/

/-- C7: the three destination-only methods on a source-side provider and the
    three source-only methods on a destination-side provider return, for every
    input, the zero result with a non-nil error, leave the provider as it was
    and invoke no collaborator. -/
theorem C7_role_misuse (s : SrcExecProvider) (d : DstExecProvider) (addr : Address)
    (sourceSelector destSelector : Nat) (transactionID : String) :
    ((s.NewOffRampReader addr).ret.1 = none ∧ (s.NewOffRampReader addr).ret.2 ≠ none ∧
      (s.NewOffRampReader addr).self = s ∧ (s.NewOffRampReader addr).calls = []) ∧
    ((s.NewTokenPoolBatchedReader addr sourceSelector).ret.1 = none ∧
      (s.NewTokenPoolBatchedReader addr sourceSelector).ret.2 ≠ none ∧
      (s.NewTokenPoolBatchedReader addr sourceSelector).self = s ∧
      (s.NewTokenPoolBatchedReader addr sourceSelector).calls = []) ∧
    ((s.GetTransactionStatus transactionID).ret.1 = 0 ∧
      (s.GetTransactionStatus transactionID).ret.2 ≠ none ∧
      (s.GetTransactionStatus transactionID).self = s ∧
      (s.GetTransactionStatus transactionID).calls = []) ∧
    ((d.NewOnRampReader addr sourceSelector destSelector).ret.1 = none ∧
      (d.NewOnRampReader addr sourceSelector destSelector).ret.2 ≠ none ∧
      (d.NewOnRampReader addr sourceSelector destSelector).self = d ∧
      (d.NewOnRampReader addr sourceSelector destSelector).calls = []) ∧
    ((d.NewTokenDataReader addr).ret.1 = none ∧ (d.NewTokenDataReader addr).ret.2 ≠ none ∧
      (d.NewTokenDataReader addr).self = d ∧ (d.NewTokenDataReader addr).calls = []) ∧
    ((d.SourceNativeToken addr).ret.1 = "" ∧ (d.SourceNativeToken addr).ret.2 ≠ none ∧
      (d.SourceNativeToken addr).self = d ∧ (d.SourceNativeToken addr).calls = []) := by
  refine ⟨⟨rfl, ?_, rfl, rfl⟩, ⟨rfl, ?_, rfl, rfl⟩, ⟨rfl, ?_, rfl, rfl⟩, ⟨rfl, ?_, rfl, rfl⟩,
    ⟨rfl, ?_, rfl, rfl⟩, ⟨rfl, ?_, rfl, rfl⟩⟩ <;> intro h <;> cases h

/-! ## When the seen records are written -/

/-- C8 (the claim fails): a `NewOnRampReader` call whose construction fails
    still turns the unset on-ramp record into the address of the call, and a
    `NewCommitStoreReader` call whose construction fails still records its
    address, which a later `Close` tears down. -/
theorem C8_counterexample :
    ((srcOf usdcCfg lbtcCfg 0).NewOnRampReader envFail "0xAA" 1 2).ret =
      (none, some (.errorf "on-ramp construction failed")) ∧
    (srcOf usdcCfg lbtcCfg 0).seenOnRampAddress = none ∧
    ((srcOf usdcCfg lbtcCfg 0).NewOnRampReader envFail "0xAA" 1 2).self.seenOnRampAddress =
      some "0xAA" ∧
    ((dstOf 0).NewCommitStoreReader envFail "0xCS").ret =
      (none, some (.errorf "commit store construction failed")) ∧
    (dstOf 0).seenCommitStoreAddr = none ∧
    ((dstOf 0).NewCommitStoreReader envFail "0xCS").self.seenCommitStoreAddr = some "0xCS" ∧
    (DstExecProvider.Close envOk ((dstOf 0).NewCommitStoreReader envFail "0xCS").self).calls =
      [Call.CloseCommitStoreReader ⟨"DstExecProvider"⟩ "0xCS" 2 3 5,
       Call.CloseOffRampReader ⟨"DstExecProvider"⟩ "0xOFF" 2 3 none 0 5] :=
  ⟨rfl, rfl, rfl, rfl, rfl, rfl, by rw [DstExecProvider.Close_eq]; rfl⟩

/-- C8 (amended): the seen address is written by every call, before the reader
    is constructed and whatever the construction returns. After
    `SrcExecProvider.NewOnRampReader` with an address the on-ramp record holds
    that address, after `DstExecProvider.NewCommitStoreReader` with an address
    the commit-store record holds that address, and no other field changes; a
    later `DstExecProvider.Close` invokes `CloseCommitStoreReader` with that
    address, then `CloseOffRampReader`. -/
theorem C8_seen_written_by_every_call (env envC : Env) (s : SrcExecProvider)
    (d : DstExecProvider) (addr : Address) (sourceSelector destSelector : Nat) :
    (s.NewOnRampReader env addr sourceSelector destSelector).self =
      { s with seenOnRampAddress := some addr } ∧
    (d.NewCommitStoreReader env addr).self = { d with seenCommitStoreAddr := some addr } ∧
    (DstExecProvider.Close envC (d.NewCommitStoreReader env addr).self).calls =
      [Call.CloseCommitStoreReader d.lggr addr d.client d.lp d.feeEstimatorConfig,
       Call.CloseOffRampReader d.lggr d.offRampAddress d.client d.lp none 0
        d.feeEstimatorConfig] := by
  refine ⟨?_, rfl, ?_⟩
  · unfold SrcExecProvider.NewOnRampReader
    simp only
    split <;> rfl
  · rw [DstExecProvider.Close_eq]
    rfl

/-! ## Teardown after a history of calls -/

/-- C9: on a provider built by `NewDstExecProvider`, after any history of
    calls, `Close` invokes `CloseOffRampReader` exactly once, with the off-ramp
    address of the construction, whatever `NewOffRampReader` calls were made;
    it invokes `CloseCommitStoreReader` not at all when the history has no
    `NewCommitStoreReader` call, and otherwise exactly once, first, with the
    address of the most recent `NewCommitStoreReader` call. -/
theorem C9_dst_close_after_history (lggr : Logger) (versionFinder client lp : Handle)
    (startBlock : Nat) (contractTransmitter configWatcher gasEstimator : Handle)
    (maxGasPrice : Int) (feeEstimatorConfig txm : Handle) (offRampAddress : Address)
    (d : DstExecProvider)
    (hd : (NewDstExecProvider lggr versionFinder client lp startBlock contractTransmitter
      configWatcher gasEstimator maxGasPrice feeEstimatorConfig txm offRampAddress).1 = some d)
    (hist : List (Env × DstOp)) (envC : Env) :
    ((∀ e ∈ hist, e.2.isNewCommitStoreReader = false) →
      (DstExecProvider.Close envC (d.run hist).1).calls =
        [Call.CloseOffRampReader (lggr.Named "DstExecProvider") offRampAddress client lp
          none 0 feeEstimatorConfig]) ∧
    (∀ pre env1 addr post, hist = pre ++ (env1, DstOp.NewCommitStoreReader addr) :: post →
      (∀ e ∈ post, e.2.isNewCommitStoreReader = false) →
      (DstExecProvider.Close envC (d.run hist).1).calls =
        [Call.CloseCommitStoreReader (lggr.Named "DstExecProvider") addr client lp
          feeEstimatorConfig,
         Call.CloseOffRampReader (lggr.Named "DstExecProvider") offRampAddress client lp
          none 0 feeEstimatorConfig]) := by
  have hd1 := NewDstExecProvider_some lggr versionFinder client lp startBlock
    contractTransmitter configWatcher gasEstimator maxGasPrice feeEstimatorConfig txm
    offRampAddress d hd
  subst hd1
  constructor
  · intro hno
    rw [DstExecProvider.dst_run_self, (lastCommitStoreAddr_eq_none hist).mpr hno,
      DstExecProvider.Close_eq]
  · intro pre env1 addr post hh hpost
    rw [DstExecProvider.dst_run_self, hh, lastCommitStoreAddr_append pre post env1 addr hpost,
      DstExecProvider.Close_eq]

/-- C9, evaluated: two `NewCommitStoreReader` calls, the second failing, and a
    `NewOffRampReader` call with another address in between. -/
theorem C9_dst_close_after_history_witness :
    (DstExecProvider.Close envOk
      ((dstOf 0).run [(envOk, DstOp.NewCommitStoreReader "0xC1"),
        (envOk, DstOp.NewOffRampReader "0xELSE"),
        (envFail, DstOp.NewCommitStoreReader "0xC2"), (envOk, DstOp.Ready)]).1).calls =
      [Call.CloseCommitStoreReader ⟨"DstExecProvider"⟩ "0xC2" 2 3 5,
       Call.CloseOffRampReader ⟨"DstExecProvider"⟩ "0xOFF" 2 3 none 0 5] :=
  (C9_dst_close_after_history ⟨""⟩ 1 2 3 0 6 7 4 1000 5 8 "0xOFF" (dstOf 0) rfl
    [(envOk, DstOp.NewCommitStoreReader "0xC1"), (envOk, DstOp.NewOffRampReader "0xELSE"),
      (envFail, DstOp.NewCommitStoreReader "0xC2"), (envOk, DstOp.Ready)] envOk).2
    [(envOk, DstOp.NewCommitStoreReader "0xC1"), (envOk, DstOp.NewOffRampReader "0xELSE")]
    envFail "0xC2" [(envOk, DstOp.Ready)] rfl (by decide)

/-- C10: on a provider built by `NewSrcExecProvider`, after any history of
    calls without `NewOnRampReader` (with or without `NewTokenDataReader`
    calls), `Close` invokes `CloseUSDCReader` exactly once when the USDC
    attestation endpoint is not empty, and then returns exactly what that
    teardown returned; when the endpoint is empty it invokes nothing and
    returns nil. -/
theorem C10_src_close_usdc (env : Env) (lggr : Logger)
    (versionFinder client estimator : Handle) (maxGasPrice : Option Int) (lp : Handle)
    (startBlock : Nat) (jobID : String) (usdcConfig : USDCConfig) (lbtcConfig : LBTCConfig)
    (feeEstimatorConfig : Handle) (s : SrcExecProvider)
    (hs : (NewSrcExecProvider env lggr versionFinder client estimator maxGasPrice lp startBlock
      jobID usdcConfig lbtcConfig feeEstimatorConfig).1.1 = some s)
    (hist : List (Env × SrcOp)) (hno : ∀ e ∈ hist, e.2.isNewOnRampReader = false)
    (envC : Env) :
    (usdcConfig.AttestationAPI ≠ "" →
      (SrcExecProvider.Close envC (s.run hist).1).calls =
        [Call.CloseUSDCReader (lggr.Named "SrcExecProvider")
          (lggr.Named "SrcExecProvider").Name usdcConfig.SourceMessageTransmitterAddress lp] ∧
      (SrcExecProvider.Close envC (s.run hist).1).value =
        some (envC.CloseUSDCReader (lggr.Named "SrcExecProvider")
          (lggr.Named "SrcExecProvider").Name usdcConfig.SourceMessageTransmitterAddress lp)) ∧
    (usdcConfig.AttestationAPI = "" →
      (SrcExecProvider.Close envC (s.run hist).1).calls = [] ∧
      (SrcExecProvider.Close envC (s.run hist).1).value = some none) := by
  obtain ⟨r, rfl⟩ := NewSrcExecProvider_some env lggr versionFinder client estimator maxGasPrice
    lp startBlock jobID usdcConfig lbtcConfig feeEstimatorConfig s hs
  rw [SrcExecProvider.src_run_self, (lastOnRampAddress_eq_none hist).mpr hno,
    SrcExecProvider.Close_of_unseen _ _ rfl]
  refine ⟨fun h => ?_, fun h => ?_⟩
  · simp [h]
  · simp [h]

/-- C10, evaluated: USDC configured, `NewTokenDataReader` called twice or never,
    the teardown fails; and USDC not configured. -/
theorem C10_src_close_usdc_witness :
    ((SrcExecProvider.Close envFail
        ((srcOf usdcCfg lbtcCfg 0).run [(envOk, SrcOp.NewTokenDataReader "0xAA"),
          (envOk, SrcOp.NewTokenDataReader "0xCC")]).1).calls =
        [Call.CloseUSDCReader ⟨"SrcExecProvider"⟩ "SrcExecProvider" 7 3] ∧
      (SrcExecProvider.Close envFail
        ((srcOf usdcCfg lbtcCfg 0).run [(envOk, SrcOp.NewTokenDataReader "0xAA"),
          (envOk, SrcOp.NewTokenDataReader "0xCC")]).1).value =
        some (some (.errorf "usdc teardown failed"))) ∧
    ((SrcExecProvider.Close envFail ((srcOf usdcOff lbtcCfg 0).run []).1).calls = [] ∧
      (SrcExecProvider.Close envFail ((srcOf usdcOff lbtcCfg 0).run []).1).value = some none) :=
  ⟨(C10_src_close_usdc envOk ⟨""⟩ 1 2 4 (some 1000) 3 0 "job-1" usdcCfg lbtcCfg 5
      (srcOf usdcCfg lbtcCfg 0) rfl [(envOk, SrcOp.NewTokenDataReader "0xAA"),
        (envOk, SrcOp.NewTokenDataReader "0xCC")] (by decide) envFail).1 (by decide),
   (C10_src_close_usdc envOk ⟨""⟩ 1 2 4 (some 1000) 3 0 "job-1" usdcOff lbtcCfg 5
      (srcOf usdcOff lbtcCfg 0) rfl [] (by decide) envFail).2 rfl⟩

/-! ## `NewOnRampReader` and the fee estimator configuration -/

/-- C11: when the construction of the on-ramp reader returns a reader and a nil
    error, `SrcExecProvider.NewOnRampReader` calls `SetOnRampReader` exactly
    once, with that reader, after the construction, and returns the reader
    with a nil error; when the construction returns an error, `SetOnRampReader`
    is not called and the method returns a nil reader with exactly that error. -/
theorem C11_NewOnRampReader_informs_estimator (env : Env) (s : SrcExecProvider)
    (addr : Address) (sourceSelector destSelector : Nat) :
    (∀ r, env.NewOnRampReader s.lggr sourceSelector destSelector addr s.lp s.client = (r, none) →
      (s.NewOnRampReader env addr sourceSelector destSelector).ret = (r, none) ∧
      (s.NewOnRampReader env addr sourceSelector destSelector).calls =
        [Call.NewOnRampReader s.lggr sourceSelector destSelector addr s.lp s.client,
         Call.SetOnRampReader s.feeEstimatorConfig r]) ∧
    (∀ r e,
      env.NewOnRampReader s.lggr sourceSelector destSelector addr s.lp s.client = (r, some e) →
      (s.NewOnRampReader env addr sourceSelector destSelector).ret = (none, some e) ∧
      (s.NewOnRampReader env addr sourceSelector destSelector).calls =
        [Call.NewOnRampReader s.lggr sourceSelector destSelector addr s.lp s.client]) := by
  constructor
  · intro r h
    simp [SrcExecProvider.NewOnRampReader, h]
  · intro r e h
    simp [SrcExecProvider.NewOnRampReader, h]

/-- C11, evaluated: a construction that succeeds with reader 11 and one that
    fails. -/
theorem C11_NewOnRampReader_informs_estimator_witness :
    (((srcOf usdcCfg lbtcCfg 0).NewOnRampReader envOk "0xAA" 1 2).ret = (some 11, none) ∧
      ((srcOf usdcCfg lbtcCfg 0).NewOnRampReader envOk "0xAA" 1 2).calls =
        [Call.NewOnRampReader ⟨"SrcExecProvider"⟩ 1 2 "0xAA" 3 2,
         Call.SetOnRampReader 5 (some 11)]) ∧
    (((srcOf usdcCfg lbtcCfg 0).NewOnRampReader envFail "0xAA" 1 2).ret =
        (none, some (.errorf "on-ramp construction failed")) ∧
      ((srcOf usdcCfg lbtcCfg 0).NewOnRampReader envFail "0xAA" 1 2).calls =
        [Call.NewOnRampReader ⟨"SrcExecProvider"⟩ 1 2 "0xAA" 3 2]) :=
  ⟨(C11_NewOnRampReader_informs_estimator envOk (srcOf usdcCfg lbtcCfg 0) "0xAA" 1 2).1
      (some 11) rfl,
   (C11_NewOnRampReader_informs_estimator envFail (srcOf usdcCfg lbtcCfg 0) "0xAA" 1 2).2
      none (.errorf "on-ramp construction failed") rfl⟩

/-! ## Registration and teardown of the USDC reader -/

/-- C12 (defect of the code): with a USDC attestation endpoint configured,
    `NewSrcExecProvider` registers the USDC reader under the job identifier it
    was given, and `Close` tears it down with the same message-transmitter
    address but under the name of the provider logger, which is the segment
    `SrcExecProvider` appended to the name of the logger given. -/
theorem C12_usdc_teardown_uses_logger_name (env : Env) (lggr : Logger)
    (versionFinder client estimator : Handle) (maxGasPrice : Option Int) (lp : Handle)
    (startBlock : Nat) (jobID : String) (usdcConfig : USDCConfig) (lbtcConfig : LBTCConfig)
    (feeEstimatorConfig : Handle) (s : SrcExecProvider)
    (hs : (NewSrcExecProvider env lggr versionFinder client estimator maxGasPrice lp startBlock
      jobID usdcConfig lbtcConfig feeEstimatorConfig).1.1 = some s)
    (hA : usdcConfig.AttestationAPI ≠ "") (envC : Env) :
    (NewSrcExecProvider env lggr versionFinder client estimator maxGasPrice lp startBlock
      jobID usdcConfig lbtcConfig feeEstimatorConfig).2 =
      [Call.NewUSDCReader lggr jobID usdcConfig.SourceMessageTransmitterAddress lp true] ∧
    (SrcExecProvider.Close envC s).calls =
      [Call.CloseUSDCReader (lggr.Named "SrcExecProvider")
        (if lggr.name = "" then "SrcExecProvider" else lggr.name ++ "." ++ "SrcExecProvider")
        usdcConfig.SourceMessageTransmitterAddress lp] := by
  obtain ⟨r, rfl⟩ := NewSrcExecProvider_some env lggr versionFinder client estimator maxGasPrice
    lp startBlock jobID usdcConfig lbtcConfig feeEstimatorConfig s hs
  constructor
  · unfold NewSrcExecProvider
    cases hr : (env.NewUSDCReader lggr jobID usdcConfig.SourceMessageTransmitterAddress lp
      true).2 <;> simp [hA, hr]
  · rw [SrcExecProvider.Close_of_unseen _ _ rfl]
    simp only [hA, if_false]
    by_cases hn : lggr.name = "" <;> simp [Logger.Named, Logger.Name, hn]

/-- C12, evaluated: job `job-1`, unnamed logger; the reader is registered
    under `job-1` and torn down under `SrcExecProvider`. -/
theorem C12_usdc_teardown_uses_logger_name_witness :
    (NewSrcExecProvider envOk ⟨""⟩ 1 2 4 (some 1000) 3 0 "job-1" usdcCfg lbtcCfg 5).2 =
      [Call.NewUSDCReader ⟨""⟩ "job-1" 7 3 true] ∧
    (SrcExecProvider.Close envOk (srcOf usdcCfg lbtcCfg 0)).calls =
      [Call.CloseUSDCReader ⟨"SrcExecProvider"⟩ "SrcExecProvider" 7 3] ∧
    "SrcExecProvider" ≠ "job-1" :=
  have h := C12_usdc_teardown_uses_logger_name envOk ⟨""⟩ 1 2 4 (some 1000) 3 0 "job-1" usdcCfg
    lbtcCfg 5 (srcOf usdcCfg lbtcCfg 0) rfl (by decide) envOk
  ⟨h.1, h.2, by decide⟩

end ExecProvider
